import Mathlib

/-!
# Language detector front end (`static/app.js`)

A shallow embedding of the detection request controller of `static/app.js`:
the form's submit handler, the section toggles `showLoading`, `hideLoading`,
`showError`, the renderer `displayResults` with the HTML builders it calls,
and the text input's live-feedback handler.

Modelling conventions.

* A JavaScript string is the list of its UTF-16 code units, so `length` is
  the JavaScript `length` and `trim` removes exactly the code units that
  ECMAScript treats as white space or line terminators.
* The DOM is a record of the properties the script reads or writes.
* `fetch` and `response.json()` belong to the platform: the handler is
  parameterised by what they deliver (a rejection with a message, or a
  response with a status flag and a parsed body).
* An `async` function runs synchronously between two `await`s; the handler
  records an event trace in which every `await` is a suspension point.
* `setTimeout` callbacks are kept as data and run by `runTimers`.
-/

namespace LanguageDetector

/-! ## JavaScript strings -/

/-- A JavaScript string: its sequence of UTF-16 code units. -/
abbrev JSString := List Nat

/-- UTF-16 encoding of one Unicode scalar value. -/
def codeUnits (c : Char) : List Nat :=
  if c.toNat < 0x10000 then [c.toNat]
  else [0xD800 + (c.toNat - 0x10000) / 0x400, 0xDC00 + (c.toNat - 0x10000) % 0x400]

/-- A string literal of the source, as a JavaScript string. -/
def lit (s : String) : JSString := s.toList.flatMap codeUnits

/-- ECMAScript `WhiteSpace` and `LineTerminator` code units, the ones that
`String.prototype.trim` strips. -/
def isWhiteSpace (c : Nat) : Bool :=
  c == 0x0009 || c == 0x000A || c == 0x000B || c == 0x000C || c == 0x000D ||
  c == 0x0020 || c == 0x00A0 || c == 0x1680 || (0x2000 ≤ c && c ≤ 0x200A) ||
  c == 0x2028 || c == 0x2029 || c == 0x202F || c == 0x205F || c == 0x3000 ||
  c == 0xFEFF

/-- The method `String.prototype.trim`. -/
def jsTrim (s : JSString) : JSString :=
  ((s.dropWhile isWhiteSpace).reverse.dropWhile isWhiteSpace).reverse

/-- The conversion `ToString` of an integer-valued number (plain decimal digits, as
JavaScript prints every integer of magnitude below `10^21`). -/
def numToString (n : Int) : JSString := lit (toString n)

/-- The conversion `ToString` of a string-valued property that may be absent: the template
literal prints `undefined` for a missing property. -/
def strOrUndefined : Option JSString → JSString
  | some s => s
  | none => lit "undefined"

/-- The conversion `ToString` of a number-valued property that may be absent. -/
def numOrUndefined : Option Int → JSString
  | some n => numToString n
  | none => lit "undefined"

/-- Truthiness of a string-valued property that may be absent: `undefined`
and the empty string are falsy, every other string is truthy. -/
def truthy : Option JSString → Bool
  | some s => !s.isEmpty
  | none => false

/-- The expression `x || fallback` for a string-valued property `x`. -/
def orElse (x : Option JSString) (fallback : JSString) : JSString :=
  match x with
  | some s => if s.isEmpty then fallback else s
  | none => fallback

/-! ## Data model -/

/-- One entry of `alternatives`. -/
structure Alternative where
  language : JSString
  confidence : Int
deriving DecidableEq, Repr

/-- The `analysis` object of a traditional result. The n-gram lists hold
`[ngram, count]` pairs. -/
structure Analysis where
  total_bigrams : Int
  unique_bigrams : Int
  common_bigrams : List (JSString × Int)
  common_trigrams : List (JSString × Int)
deriving DecidableEq, Repr

/-- The object found under `traditional` or `pretrained` in a response.
Every property is either absent (`none`, read as `undefined`) or has the
type the server's schema gives it; numbers are integer-valued. -/
structure MethodResult where
  error : Option JSString
  language : Option JSString
  confidence : Option Int
  method : Option JSString
  analysis : Option Analysis
  alternatives : Option (List Alternative)
deriving DecidableEq, Repr

/-- The properties of a parsed response body that the script reads. The
script only tests `traditional` and `pretrained` for truthiness before using
them, so a property that is absent or `null` is `none`. -/
structure ResponseData where
  error : Option JSString
  traditional : Option MethodResult
  pretrained : Option MethodResult
deriving DecidableEq, Repr

/-- What `response.json()` resolves to: the JSON value `null`, or a value on
which property reads succeed. A JSON number, string, boolean or array has
none of the three properties and is the `value` with all three absent. -/
inductive Body where
  | null
  | value (data : ResponseData)
deriving DecidableEq, Repr

/-- Outcome of `await response.json()`: a rejection carrying the error's
`message` (the body is not JSON), or the parsed body. -/
inductive JsonOutcome where
  | rejected (message : JSString)
  | resolved (data : Body)
deriving DecidableEq, Repr

/-- Outcome of `await fetch(...)`: a rejection carrying the error's
`message` (no response was received), or a response with its `ok` flag and
what `json()` will deliver. -/
inductive FetchOutcome where
  | rejected (message : JSString)
  | response (ok : Bool) (json : JsonOutcome)
deriving DecidableEq, Repr

/-- The object handed to `JSON.stringify` for the request body. -/
structure RequestBody where
  text : JSString
  method : JSString
deriving DecidableEq, Repr

/-- The arguments of the `fetch` call. -/
structure Request where
  url : JSString
  method : JSString
  headers : List (JSString × JSString)
  body : RequestBody
deriving DecidableEq, Repr

/-- Engine-dependent part of the platform: the `message` of the `TypeError`
raised when the named property is read from `null`. -/
structure Platform where
  nullReadMessage : JSString → JSString

/-! ## DOM state -/

/-- Value of an element's inline `style.display`. -/
inductive Display where
  | unset
  | none
  | block
deriving DecidableEq, Repr

/-- The DOM properties the script reads or writes. -/
structure Dom where
  /-- Property `loadingSection.style.display` -/
  loadingDisplay : Display
  /-- Property `resultsSection.style.display` -/
  resultsDisplay : Display
  /-- Property `errorSection.style.display` -/
  errorDisplay : Display
  /-- Property `resultsSection.style.opacity` -/
  resultsOpacity : JSString
  /-- Property `resultsSection.style.transition` -/
  resultsTransition : JSString
  /-- Property `errorMessage.textContent` -/
  errorMessage : JSString
  /-- Property `traditionalResults.innerHTML`, the markup last assigned -/
  traditionalResults : JSString
  /-- Property `pretrainedResults.innerHTML`, the markup last assigned -/
  pretrainedResults : JSString
  /-- Property `style.display` of the column holding `#traditional-card` -/
  traditionalColDisplay : Display
  /-- Property `style.display` of the column holding `#pretrained-card` -/
  pretrainedColDisplay : Display
  /-- Property `className` of the column holding `#traditional-card` -/
  traditionalColClass : JSString
  /-- Property `className` of the column holding `#pretrained-card` -/
  pretrainedColClass : JSString
  /-- Class tokens of `#traditional-card` -/
  traditionalCardClass : List JSString
  /-- Class tokens of `#pretrained-card` -/
  pretrainedCardClass : List JSString
  /-- Whether `.detect-button` carries the class `loading` -/
  submitLoading : Bool
  /-- Property `submitButton.disabled` -/
  submitDisabled : Bool
  /-- Property `formText.style.color` -/
  formTextColor : JSString
  /-- Property `formText.innerHTML` -/
  formTextHTML : JSString
deriving DecidableEq, Repr

/-- The method `classList.add(token)`. -/
def classListAdd (token : JSString) (classes : List JSString) : List JSString :=
  if token ∈ classes then classes else classes ++ [token]

/-! ## Section toggles -/

/-- The function `showLoading()`. -/
def showLoading (d : Dom) : Dom :=
  { d with loadingDisplay := .block, resultsDisplay := .none, errorDisplay := .none }

/-- The function `hideLoading()`. -/
def hideLoading (d : Dom) : Dom :=
  { d with loadingDisplay := .none }

/-- The function `showError(message)`. -/
def showError (message : JSString) (d : Dom) : Dom :=
  { d with errorMessage := message, errorDisplay := .block,
           resultsDisplay := .none, loadingDisplay := .none }

/-! ## HTML builders -/

/-- The builder `createErrorDisplay(error)`, for a string `error`. -/
def createErrorDisplay (error : JSString) : JSString :=
  lit "\n            <div class=\"alert alert-danger\" role=\"alert\">\n                <i class=\"fas fa-exclamation-triangle me-2\"></i>\n                " ++
  error ++
  lit "\n            </div>\n        "

/-- The comparison `x >= k` for a number-valued property that may be absent:
`undefined` converts to `NaN`, which compares false. -/
def jsGe (x : Option Int) (k : Int) : Bool :=
  match x with
  | some n => decide (k ≤ n)
  | none => false

/-- The function `getConfidenceClass(confidence)`. -/
def getConfidenceClass (confidence : Option Int) : JSString :=
  if jsGe confidence 80 then lit "confidence-high"
  else if jsGe confidence 60 then lit "confidence-medium"
  else lit "confidence-low"

/-- One n-gram chip: the arrow function mapped over `common_bigrams` and
`common_trigrams` in `createAnalysisDisplay`. -/
def ngramItem (entry : JSString × Int) : JSString :=
  lit "<span class=\"ngram-item\">" ++ entry.1 ++ lit " (" ++ numToString entry.2 ++ lit ")</span>"

/-- The method `Array.prototype.join` with the empty separator. -/
def joinEmpty (parts : List JSString) : JSString := parts.flatten

/-- The builder `createAnalysisDisplay(analysis)`. -/
def createAnalysisDisplay (analysis : Analysis) : JSString :=
  lit "\n            <div class=\"analysis-details\">\n                <h6 class=\"mb-3\">\n                    <i class=\"fas fa-chart-line me-2\"></i>\n                    N-gram Analysis\n                </h6>\n                \n                <div class=\"row mb-3\">\n                    <div class=\"col-6\">\n                        <div class=\"text-center\">\n                            <div class=\"h5 text-success\">" ++
  numToString analysis.total_bigrams ++
  lit "</div>\n                            <small class=\"text-muted\">Total Bigrams</small>\n                        </div>\n                    </div>\n                    <div class=\"col-6\">\n                        <div class=\"text-center\">\n                            <div class=\"h5 text-success\">" ++
  numToString analysis.unique_bigrams ++
  lit "</div>\n                            <small class=\"text-muted\">Unique Bigrams</small>\n                        </div>\n                    </div>\n                </div>\n                \n                <div class=\"mb-3\">\n                    <strong>Most Common Bigrams:</strong>\n                    <div class=\"mt-2\">\n                        " ++
  joinEmpty (analysis.common_bigrams.map ngramItem) ++
  lit "\n                    </div>\n                </div>\n                \n                <div>\n                    <strong>Most Common Trigrams:</strong>\n                    <div class=\"mt-2\">\n                        " ++
  joinEmpty (analysis.common_trigrams.map ngramItem) ++
  lit "\n                    </div>\n                </div>\n            </div>\n        "

/-- One row of the alternatives list: the arrow function `(alt, index) => ...`
of `createAlternativesDisplay`. -/
def alternativeItem (alt : Alternative) (index : Nat) : JSString :=
  lit "\n                        <div class=\"alternative-item\">\n                            <div>\n                                <span class=\"badge bg-secondary me-2\">" ++
  numToString (index + 1) ++
  lit "</span>\n                                " ++
  alt.language ++
  lit "\n                            </div>\n                            <div>\n                                <span class=\"badge bg-info\">" ++
  numToString alt.confidence ++
  lit "%</span>\n                            </div>\n                        </div>\n                    "

/-- The call `alternatives.map((alt, index) => ...)`, the index starting at
`index`. -/
def alternativeItems (index : Nat) : List Alternative → List JSString
  | [] => []
  | alt :: rest => alternativeItem alt index :: alternativeItems (index + 1) rest

/-- The builder `createAlternativesDisplay(alternatives)`. -/
def createAlternativesDisplay (alternatives : List Alternative) : JSString :=
  lit "\n            <div class=\"analysis-details\">\n                <h6 class=\"mb-3\">\n                    <i class=\"fas fa-list me-2\"></i>\n                    Alternative Predictions\n                </h6>\n                \n                <div class=\"alternatives-list\">\n                    " ++
  joinEmpty (alternativeItems 0 alternatives) ++
  lit "\n                </div>\n            </div>\n        "

/-- The builder `createTraditionalResultDisplay(result)`. -/
def createTraditionalResultDisplay (result : MethodResult) : JSString :=
  lit "\n            <div class=\"language-result text-success\">\n                <i class=\"fas fa-flag me-2\"></i>\n                " ++
  strOrUndefined result.language ++
  lit "\n            </div>\n            <div class=\"confidence-text mb-3\">\n                Confidence: <strong>" ++
  numOrUndefined result.confidence ++
  lit "%</strong>\n            </div>\n            \n            <div class=\"confidence-meter mb-3\">\n                <div class=\"confidence-meter-fill " ++
  getConfidenceClass result.confidence ++
  lit "\" \n                     style=\"width: " ++
  numOrUndefined result.confidence ++
  lit "%\"></div>\n            </div>\n            \n            <div class=\"method-info mb-3\">\n                <small class=\"text-muted\">\n                    <i class=\"fas fa-info-circle me-1\"></i>\n                    " ++
  strOrUndefined result.method ++
  lit "\n                </small>\n            </div>\n            \n            " ++
  (match result.analysis with
   | some analysis => createAnalysisDisplay analysis
   | none => lit "") ++
  lit "\n        "

/-- The builder `createPretrainedResultDisplay(result)`. -/
def createPretrainedResultDisplay (result : MethodResult) : JSString :=
  lit "\n            <div class=\"language-result text-info\">\n                <i class=\"fas fa-flag me-2\"></i>\n                " ++
  strOrUndefined result.language ++
  lit "\n            </div>\n            <div class=\"confidence-text mb-3\">\n                Confidence: <strong>" ++
  numOrUndefined result.confidence ++
  lit "%</strong>\n            </div>\n            \n            <div class=\"confidence-meter mb-3\">\n                <div class=\"confidence-meter-fill " ++
  getConfidenceClass result.confidence ++
  lit "\" \n                     style=\"width: " ++
  numOrUndefined result.confidence ++
  lit "%\"></div>\n            </div>\n            \n            <div class=\"method-info mb-3\">\n                <small class=\"text-muted\">\n                    <i class=\"fas fa-info-circle me-1\"></i>\n                    " ++
  strOrUndefined result.method ++
  lit "\n                </small>\n            </div>\n            \n            " ++
  (match result.alternatives with
   | some alternatives => createAlternativesDisplay alternatives
   | none => lit "") ++
  lit "\n        "

/-! ## Rendering -/

/-- The body of a `setTimeout` callback registered by `displayResults`. -/
inductive TimerAction where
  /-- The callback that fills `traditionalResults` from `data.traditional`. -/
  | traditional (result : MethodResult)
  /-- The callback that fills `pretrainedResults` from `data.pretrained`. -/
  | pretrained (result : MethodResult)
  /-- The callback that fades the results section in. -/
  | fadeIn
  /-- The callback that runs `animateConfidenceBars()` and `scrollToResults()`. -/
  | animate
deriving DecidableEq, Repr

/-- A pending `setTimeout(callback, delay)`. -/
structure Timer where
  delay : Nat
  action : TimerAction
deriving DecidableEq, Repr

/-- The first half of `displayResults(data, method)`, up to the column
layout: the results section is made visible (still transparent), the error
section hidden, both panels cleared and the cards laid out for `method`. -/
def resultsLayout (method : JSString) (d : Dom) : Dom :=
  let d1 : Dom :=
    { d with
      resultsOpacity := lit "0"
      resultsDisplay := .block
      errorDisplay := .none
      traditionalResults := lit ""
      pretrainedResults := lit ""
      traditionalCardClass := classListAdd (lit "results-enter") d.traditionalCardClass
      pretrainedCardClass := classListAdd (lit "results-enter") d.pretrainedCardClass }
  if method = lit "traditional" then
    { d1 with
      traditionalColDisplay := .block
      pretrainedColDisplay := .none
      traditionalColClass := lit "col-12 mb-4"
      traditionalCardClass := [lit "card", lit "h-100", lit "results-enter"] }
  else if method = lit "pretrained" then
    { d1 with
      traditionalColDisplay := .none
      pretrainedColDisplay := .block
      pretrainedColClass := lit "col-12 mb-4"
      pretrainedCardClass := [lit "card", lit "h-100", lit "results-enter"] }
  else
    { d1 with
      traditionalColDisplay := .block
      pretrainedColDisplay := .block
      traditionalColClass := lit "col-xl-6 col-lg-12 col-md-12 mb-4"
      pretrainedColClass := lit "col-xl-6 col-lg-12 col-md-12 mb-4"
      traditionalCardClass := [lit "card", lit "h-100", lit "results-enter"]
      pretrainedCardClass := [lit "card", lit "h-100", lit "results-enter"] }

/-- The second half of `displayResults(data, method)`: the four `setTimeout`
calls, in the order in which they are made. A sub-result is rendered only
when `data.traditional` (`data.pretrained`) is truthy. -/
def resultTimers (data : ResponseData) (method : JSString) : List Timer :=
  (match data.traditional with
   | some result => [⟨200, .traditional result⟩]
   | none => []) ++
  (match data.pretrained with
   | some result => [⟨if method = lit "both" then 400 else 200, .pretrained result⟩]
   | none => []) ++
  [⟨100, .fadeIn⟩, ⟨600, .animate⟩]

/-- The function `displayResults(data, method)`: the synchronous part returns
the new DOM and the timers it registered. Reading `data.traditional` from
`null` raises a `TypeError` after the layout statements have run; the
exception carries its message and the DOM reached. -/
def displayResults (P : Platform) (data : Body) (method : JSString) (d : Dom) :
    Except (JSString × Dom) (Dom × List Timer) :=
  match data with
  | .null => .error (P.nullReadMessage (lit "traditional"), resultsLayout method d)
  | .value fields => .ok (resultsLayout method d, resultTimers fields method)

/-- Running one timer callback. `animateElements`, `animateConfidenceBars`
and `scrollToResults` only touch inline styles of elements inside the panels
and the scroll position, which are not part of `Dom`. -/
def fire (action : TimerAction) (d : Dom) : Dom :=
  match action with
  | .traditional result =>
    if truthy result.error then
      { d with traditionalResults := createErrorDisplay (strOrUndefined result.error) }
    else
      { d with traditionalResults := createTraditionalResultDisplay result }
  | .pretrained result =>
    if truthy result.error then
      { d with pretrainedResults := createErrorDisplay (strOrUndefined result.error) }
    else
      { d with pretrainedResults := createPretrainedResultDisplay result }
  | .fadeIn =>
    { d with resultsOpacity := lit "1", resultsTransition := lit "opacity 0.5s ease-in-out" }
  | .animate => d

/-- Insertion of a timer into a queue ordered by delay, behind the timers
of the same delay that were registered before it. -/
def insertTimer (t : Timer) : List Timer → List Timer
  | [] => [t]
  | u :: us => if t.delay < u.delay then t :: u :: us else u :: insertTimer t us

/-- The order in which the event loop runs timers registered in one task:
by delay, and by registration order for equal delays. -/
def timerOrder (ts : List Timer) : List Timer :=
  ts.foldl (fun queue t => insertTimer t queue) []

/-- The DOM after every pending timer has fired. -/
def runTimers (ts : List Timer) (d : Dom) : Dom :=
  (timerOrder ts).foldl (fun dom t => fire t.action dom) d

/-! ## The submit handler -/

/-- Observable steps of one run of the submit handler. -/
inductive Event where
  /-- An assignment to `submitButton.disabled`. -/
  | disabled (value : Bool)
  /-- The call `fetch(url, options)`. -/
  | fetch (request : Request)
  /-- An `await`: the handler is suspended and other tasks may run. -/
  | suspend
  /-- A call `showError(message)`. -/
  | showError (message : JSString)
  /-- The call `displayResults(data, method)`. -/
  | displayResults (data : Body) (method : JSString)
deriving DecidableEq, Repr

/-- The result of one run of the submit handler. -/
structure Run where
  /-- The DOM when the handler has finished. -/
  dom : Dom
  /-- The events of the run, in order. -/
  trace : List Event
  /-- The timers left pending. -/
  timers : List Timer
  /-- The message of an exception that left the handler, if any. -/
  uncaught : Option JSString
deriving DecidableEq, Repr

/-- The `try` block of the submit handler, entered in DOM state `d`. An
exception carries its `message`, the DOM reached and the events so far. -/
def tryBlock (P : Platform) (fetch : Request → FetchOutcome) (text method : JSString)
    (d : Dom) : Except (JSString × Dom × List Event) (Dom × List Event × List Timer) :=
  let request : Request :=
    { url := lit "/detect"
      method := lit "POST"
      headers := [(lit "Content-Type", lit "application/json")]
      body := { text := text, method := method } }
  match fetch request with
  | .rejected message => .error (message, d, [.fetch request, .suspend])
  | .response ok json =>
    match json with
    | .rejected message => .error (message, d, [.fetch request, .suspend, .suspend])
    | .resolved data =>
      if !ok then
        match data with
        | .null =>
          .error (P.nullReadMessage (lit "error"), d, [.fetch request, .suspend, .suspend])
        | .value fields =>
          .error (orElse fields.error (lit "Detection failed"), d,
            [.fetch request, .suspend, .suspend])
      else
        let d1 : Dom := { hideLoading d with submitLoading := false, submitDisabled := false }
        let events : List Event :=
          [.fetch request, .suspend, .suspend, .disabled false, .displayResults data method]
        match displayResults P data method d1 with
        | .ok (d2, timers) => .ok (d2, events, timers)
        | .error (message, d2) => .error (message, d2, events)

/-- The form's `submit` listener. `value` is `textInput.value`, `checked` the
value of the checked `method` radio button (`none` when no button is
checked, in which case reading `.value` raises a `TypeError` outside the
`try` block), `fetch` the platform's answer to a request. -/
def submitHandler (P : Platform) (fetch : Request → FetchOutcome) (value : JSString)
    (checked : Option JSString) (d : Dom) : Run :=
  let text := jsTrim value
  match checked with
  | none => { dom := d, trace := [], timers := [], uncaught := some (P.nullReadMessage (lit "value")) }
  | some method =>
    if text.isEmpty then
      { dom := showError (lit "Please enter some text to analyze.") d
        trace := [.showError (lit "Please enter some text to analyze.")]
        timers := []
        uncaught := none }
    else if text.length < 3 then
      { dom := showError (lit "Text must be at least 3 characters long for accurate detection.") d
        trace := [.showError (lit "Text must be at least 3 characters long for accurate detection.")]
        timers := []
        uncaught := none }
    else
      let d1 : Dom := showLoading { d with submitLoading := true, submitDisabled := true }
      match tryBlock P fetch text method d1 with
      | .ok (d2, events, timers) =>
        { dom := d2, trace := .disabled true :: events, timers := timers, uncaught := none }
      | .error (message, d2, events) =>
        let d3 : Dom := { hideLoading d2 with submitLoading := false, submitDisabled := false }
        { dom := showError message d3
          trace := .disabled true :: (events ++ [.disabled false, .showError message])
          timers := []
          uncaught := none }

/-! ## Live feedback on the text input -/

/-- The text input's `input` listener; `value` is `this.value`. -/
def inputHandler (value : JSString) (d : Dom) : Dom :=
  let length := (jsTrim value).length
  if length < 3 ∧ length > 0 then
    { d with
      formTextColor := lit "#dc3545"
      formTextHTML :=
        lit "<i class=\"fas fa-exclamation-circle me-1\"></i>Need " ++
        numToString (3 - (length : Int)) ++
        lit " more characters for accurate detection." }
  else if length ≥ 3 then
    { d with
      formTextColor := lit "#28a745"
      formTextHTML :=
        lit "<i class=\"fas fa-check-circle me-1\"></i>Text length is good for detection (" ++
        numToString length ++
        lit " characters)." }
  else
    { d with
      formTextColor := lit ""
      formTextHTML := lit "Minimum 3 characters required for accurate detection." }


/-! ## Concrete page states and platforms used in examples -/

/-- The page before the first submission: no inline styles, empty panels,
submit button enabled. -/
def idle : Dom :=
  { loadingDisplay := .unset, resultsDisplay := .unset, errorDisplay := .unset
    resultsOpacity := lit "", resultsTransition := lit "", errorMessage := lit ""
    traditionalResults := lit "", pretrainedResults := lit ""
    traditionalColDisplay := .unset, pretrainedColDisplay := .unset
    traditionalColClass := lit "col-xl-6 col-lg-12 col-md-12 mb-4"
    pretrainedColClass := lit "col-xl-6 col-lg-12 col-md-12 mb-4"
    traditionalCardClass := [lit "card", lit "h-100"]
    pretrainedCardClass := [lit "card", lit "h-100"]
    submitLoading := false, submitDisabled := false
    formTextColor := lit ""
    formTextHTML := lit "Minimum 3 characters required for accurate detection." }

/-- The wording of V8 for a property read from `null`. -/
def v8 : Platform :=
  { nullReadMessage := fun property =>
      lit "Cannot read properties of null (reading '" ++ property ++ lit "')" }

/-- A network that is down: every `fetch` rejects. -/
def offline : Request → FetchOutcome :=
  fun _ => .rejected (lit "Failed to fetch")

/-- A traditional result: French with confidence 91. -/
def frenchResult : MethodResult :=
  { error := none, language := some (lit "French"), confidence := some 91
    method := some (lit "N-gram"), analysis := none, alternatives := none }

/-- A server that answers every request with a success status and the body
`{"traditional": frenchResult}`. -/
def frenchServer : Request → FetchOutcome :=
  fun _ => .response true (.resolved (.value ⟨none, some frenchResult, none⟩))

/-- A server that answers every request with a success status and the body
`null`. -/
def nullServer : Request → FetchOutcome :=
  fun _ => .response true (.resolved .null)

/-! ## Trace observations -/

/-- The requests issued during a run, in order. -/
def requests : List Event → List Request
  | [] => []
  | .fetch request :: rest => request :: requests rest
  | _ :: rest => requests rest


/-! ## The paths through the submit handler -/

set_option maxRecDepth 20000

/-- The request the handler builds for a trimmed text and a method. -/
def detectRequest (text method : JSString) : Request :=
  { url := lit "/detect"
    method := lit "POST"
    headers := [(lit "Content-Type", lit "application/json")]
    body := { text := text, method := method } }

/-- The page while the request is in flight: button busy and disabled,
loading section shown. -/
def waiting (d : Dom) : Dom :=
  showLoading { d with submitLoading := true, submitDisabled := true }

/-- The three statements that precede both `displayResults` and `showError`
once the wait is over: loading hidden, button released. -/
def released (d : Dom) : Dom :=
  { hideLoading d with submitLoading := false, submitDisabled := false }

/-- The value of `submitButton.disabled` after the events of a trace,
starting from `init`. -/
def buttonAfter (init : Bool) : List Event → Bool
  | [] => init
  | .disabled value :: rest => buttonAfter value rest
  | _ :: rest => buttonAfter init rest

/-- Whether the submit button is disabled at every `fetch` call and at every
suspension point of a trace, when it starts in state `init`. -/
def disabledAtCallsAndWaits (init : Bool) : List Event → Bool
  | [] => true
  | .disabled value :: rest => disabledAtCallsAndWaits value rest
  | .fetch _ :: rest => init && disabledAtCallsAndWaits init rest
  | .suspend :: rest => init && disabledAtCallsAndWaits init rest
  | _ :: rest => disabledAtCallsAndWaits init rest

/-- How many times the submit button goes from disabled to enabled along a
trace, when it starts in state `init`. -/
def reenabled (init : Bool) : List Event → Nat
  | [] => 0
  | .disabled value :: rest => (if init && !value then 1 else 0) + reenabled value rest
  | _ :: rest => reenabled init rest

/-- How many times the statement `submitButton.disabled = false` is executed
along a trace. -/
def releases : List Event → Nat
  | [] => 0
  | .disabled false :: rest => 1 + releases rest
  | _ :: rest => releases rest

/-- The events of the last synchronous block of a run: those after the last
suspension point. `block` holds the events since the latest suspension seen
so far. -/
def lastBlockFrom (block : List Event) : List Event → List Event
  | [] => block
  | .suspend :: rest => lastBlockFrom rest rest
  | _ :: rest => lastBlockFrom block rest

/-- The events of a trace after its last suspension point. -/
def lastBlock (trace : List Event) : List Event := lastBlockFrom trace trace

/-- Whether an event is a call of `showError` or of `displayResults`.
`showError` writes the message at once; `displayResults` only lays out the
results section and registers timers, and the result markup is written when
those timers fire, 200 or 400 ms later. -/
def isRenderCall : Event → Bool
  | .showError _ => true
  | .displayResults _ _ => true
  | _ => false

/-- The messages passed to `showError` during a run, in order. -/
def errorsShown : List Event → List JSString
  | [] => []
  | .showError message :: rest => message :: errorsShown rest
  | _ :: rest => errorsShown rest

/-- The inline `display` of the loading, results and error sections. -/
def sections (d : Dom) : Display × Display × Display :=
  (d.loadingDisplay, d.resultsDisplay, d.errorDisplay)

/-- The rank of a confidence class in the order low, medium, high. -/
def classRank (cls : JSString) : Nat :=
  if cls = lit "confidence-high" then 2
  else if cls = lit "confidence-medium" then 1
  else 0

theorem isEmpty_eq_false_of_length {text : JSString} (h : 0 < text.length) :
    text.isEmpty = false := by
  cases text with
  | nil => simp at h
  | cons c cs => rfl

theorem isEmpty_of_length_eq_zero {text : JSString} (h : text.length = 0) :
    text.isEmpty = true := by
  cases text with
  | nil => rfl
  | cons c cs => simp at h

/-- After validation the handler is the `try` block run on the waiting page,
with the `catch` clause applied to its exception. -/
theorem submitHandler_valid (P : Platform) (fetch : Request → FetchOutcome)
    (value method : JSString) (d : Dom) (h : 3 ≤ (jsTrim value).length) :
    submitHandler P fetch value (some method) d =
      match tryBlock P fetch (jsTrim value) method (waiting d) with
      | .ok (d2, events, timers) =>
        { dom := d2, trace := .disabled true :: events, timers := timers, uncaught := none }
      | .error (message, d2, events) =>
        { dom := showError message (released d2)
          trace := .disabled true :: (events ++ [.disabled false, .showError message])
          timers := []
          uncaught := none } := by
  have hne : (jsTrim value).isEmpty = false := isEmpty_eq_false_of_length (by omega)
  have hlt : ¬ (jsTrim value).length < 3 := by omega
  unfold submitHandler
  simp only [hne, hlt, if_false, Bool.false_eq_true]
  rfl

/-- Transport failure: `fetch` rejects. -/
theorem tryBlock_rejected (P : Platform) (fetch : Request → FetchOutcome)
    (text method message : JSString) (d : Dom)
    (hf : fetch (detectRequest text method) = .rejected message) :
    tryBlock P fetch text method d =
      .error (message, d, [.fetch (detectRequest text method), .suspend]) := by
  unfold tryBlock
  simp only [← detectRequest.eq_1, hf]

/-- The body cannot be parsed: `response.json()` rejects. -/
theorem tryBlock_unparsed (P : Platform) (fetch : Request → FetchOutcome)
    (text method message : JSString) (ok : Bool) (d : Dom)
    (hf : fetch (detectRequest text method) = .response ok (.rejected message)) :
    tryBlock P fetch text method d =
      .error (message, d, [.fetch (detectRequest text method), .suspend, .suspend]) := by
  unfold tryBlock
  simp only [← detectRequest.eq_1, hf]

/-- Non-success status with the body `null`. -/
theorem tryBlock_failure_null (P : Platform) (fetch : Request → FetchOutcome)
    (text method : JSString) (d : Dom)
    (hf : fetch (detectRequest text method) = .response false (.resolved .null)) :
    tryBlock P fetch text method d =
      .error (P.nullReadMessage (lit "error"), d,
        [.fetch (detectRequest text method), .suspend, .suspend]) := by
  unfold tryBlock
  simp only [← detectRequest.eq_1, hf]
  rfl

/-- Non-success status with a body on which `data.error` can be read. -/
theorem tryBlock_failure_value (P : Platform) (fetch : Request → FetchOutcome)
    (text method : JSString) (fields : ResponseData) (d : Dom)
    (hf : fetch (detectRequest text method) = .response false (.resolved (.value fields))) :
    tryBlock P fetch text method d =
      .error (orElse fields.error (lit "Detection failed"), d,
        [.fetch (detectRequest text method), .suspend, .suspend]) := by
  unfold tryBlock
  simp only [← detectRequest.eq_1, hf]
  rfl

/-- Success status with the body `null`: `displayResults` raises. -/
theorem tryBlock_success_null (P : Platform) (fetch : Request → FetchOutcome)
    (text method : JSString) (d : Dom)
    (hf : fetch (detectRequest text method) = .response true (.resolved .null)) :
    tryBlock P fetch text method d =
      .error (P.nullReadMessage (lit "traditional"), resultsLayout method (released d),
        [.fetch (detectRequest text method), .suspend, .suspend, .disabled false,
          .displayResults .null method]) := by
  unfold tryBlock
  simp only [← detectRequest.eq_1, hf]
  rfl

/-- Success status with a body that `displayResults` can read. -/
theorem tryBlock_success_value (P : Platform) (fetch : Request → FetchOutcome)
    (text method : JSString) (fields : ResponseData) (d : Dom)
    (hf : fetch (detectRequest text method) = .response true (.resolved (.value fields))) :
    tryBlock P fetch text method d =
      .ok (resultsLayout method (released d),
        [.fetch (detectRequest text method), .suspend, .suspend, .disabled false,
          .displayResults (.value fields) method],
        resultTimers fields method) := by
  unfold tryBlock
  simp only [← detectRequest.eq_1, hf]
  rfl

/-- Every run that passes validation is one of six paths, and on each of
them the events of the `try` block begin with the one `fetch`: whatever the
network answers, the block's events are the call, one or two suspensions and
then no further call. -/
theorem requests_tryBlock (P : Platform) (fetch : Request → FetchOutcome)
    (text method : JSString) (d : Dom) :
    (match tryBlock P fetch text method d with
      | .ok (_, events, _) => requests events
      | .error (_, _, events) => requests events) = [detectRequest text method] := by
  cases hf : fetch (detectRequest text method) with
  | rejected message => rw [tryBlock_rejected P fetch text method message d hf]; rfl
  | response ok json =>
    cases json with
    | rejected message => rw [tryBlock_unparsed P fetch text method message ok d hf]; rfl
    | resolved data =>
      cases ok <;> cases data
      · rw [tryBlock_failure_null P fetch text method d hf]; rfl
      · rw [tryBlock_failure_value P fetch text method _ d hf]; rfl
      · rw [tryBlock_success_null P fetch text method d hf]; rfl
      · rw [tryBlock_success_value P fetch text method _ d hf]; rfl

theorem requests_append (xs ys : List Event) :
    requests (xs ++ ys) = requests xs ++ requests ys := by
  induction xs with
  | nil => rfl
  | cons e es ih => cases e <;> simp [requests, ih]

/-! ## C1: one request, carrying the trimmed text and the selected method -/

/-- C1. For every input whose trimmed length is at least 3 and every selected
method value, the submit handler issues exactly one request: a `POST` to
`/detect` with JSON content type whose body has `text` equal to the trimmed
input and `method` equal to the selected value. This holds whatever the
network answers and whatever the page state was. -/
theorem submit_issues_exactly_one_request (P : Platform) (fetch : Request → FetchOutcome)
    (value method : JSString) (d : Dom) (h : 3 ≤ (jsTrim value).length) :
    requests (submitHandler P fetch value (some method) d).trace =
      [{ url := lit "/detect"
         method := lit "POST"
         headers := [(lit "Content-Type", lit "application/json")]
         body := { text := jsTrim value, method := method } }] := by
  have key := requests_tryBlock P fetch (jsTrim value) method (waiting d)
  rw [submitHandler_valid P fetch value method d h]
  split
  · rename_i d2 events timers heq
    rw [heq] at key
    simpa [requests, detectRequest] using key
  · rename_i message d2 events heq
    rw [heq] at key
    simp only [requests, requests_append, List.append_nil]
    simpa [detectRequest] using key

/-- Witness for C1: the text `"  hello "` with method `both` on an idle page
whose network is down. -/
theorem submit_issues_exactly_one_request_witness :
    3 ≤ (jsTrim (lit "  hello ")).length ∧
    requests (submitHandler v8 offline (lit "  hello ") (some (lit "both")) idle).trace =
      [{ url := lit "/detect"
         method := lit "POST"
         headers := [(lit "Content-Type", lit "application/json")]
         body := { text := jsTrim (lit "  hello "), method := lit "both" } }] :=
  ⟨by decide, submit_issues_exactly_one_request v8 offline (lit "  hello ") (lit "both") idle
    (by decide)⟩

/-! ## C2: blank input -/

/-- The run on a blank input. -/
theorem submitHandler_blank (P : Platform)
    (fetch : Request → FetchOutcome) (value method : JSString) (d : Dom)
    (h : (jsTrim value).length = 0) :
    submitHandler P fetch value (some method) d =
      { dom := showError (lit "Please enter some text to analyze.") d
        trace := [.showError (lit "Please enter some text to analyze.")]
        timers := []
        uncaught := none } := by
  have he : (jsTrim value).isEmpty = true := isEmpty_of_length_eq_zero h
  unfold submitHandler
  simp only [he, if_true]

/-- The run on an input of one or two characters. -/
theorem submitHandler_short (P : Platform)
    (fetch : Request → FetchOutcome) (value method : JSString) (d : Dom)
    (hpos : 0 < (jsTrim value).length) (hlt : (jsTrim value).length < 3) :
    submitHandler P fetch value (some method) d =
      { dom := showError (lit "Text must be at least 3 characters long for accurate detection.") d
        trace := [.showError (lit "Text must be at least 3 characters long for accurate detection.")]
        timers := []
        uncaught := none } := by
  have hne : (jsTrim value).isEmpty = false := isEmpty_eq_false_of_length hpos
  unfold submitHandler
  simp only [hne, hlt, if_true, if_false, Bool.false_eq_true]

/-- C2. For every input whose trimmed length is 0 (empty or white space
only), the submit handler issues no request: its only event is one
`showError` with the validation message, after which the error section is
shown with that message; the submit button is not touched (it keeps the
enabled state it had) and nothing is thrown. -/
theorem submit_blank_shows_validation_message (P : Platform)
    (fetch : Request → FetchOutcome) (value method : JSString) (d : Dom)
    (h : (jsTrim value).length = 0) :
    requests (submitHandler P fetch value (some method) d).trace = [] ∧
    (submitHandler P fetch value (some method) d).trace =
      [.showError (lit "Please enter some text to analyze.")] ∧
    (submitHandler P fetch value (some method) d).dom =
      showError (lit "Please enter some text to analyze.") d ∧
    sections (submitHandler P fetch value (some method) d).dom = (.none, .none, .block) ∧
    (submitHandler P fetch value (some method) d).dom.errorMessage =
      lit "Please enter some text to analyze." ∧
    (submitHandler P fetch value (some method) d).dom.submitDisabled = d.submitDisabled ∧
    (submitHandler P fetch value (some method) d).uncaught = none := by
  rw [submitHandler_blank P fetch value method d h]
  exact ⟨rfl, rfl, rfl, rfl, rfl, rfl, rfl⟩

/-- Witness for C2: three blanks and a tab submitted on the idle page. -/
theorem submit_blank_shows_validation_message_witness :
    (jsTrim (lit "   \t")).length = 0 ∧
    requests (submitHandler v8 offline (lit "   \t") (some (lit "both")) idle).trace = [] ∧
    (submitHandler v8 offline (lit "   \t") (some (lit "both")) idle).dom.errorMessage =
      lit "Please enter some text to analyze." ∧
    (submitHandler v8 offline (lit "   \t") (some (lit "both")) idle).dom.submitDisabled = false :=
  have key := submit_blank_shows_validation_message v8 offline (lit "   \t") (lit "both") idle
    (by decide)
  ⟨by decide, key.1, key.2.2.2.2.1, key.2.2.2.2.2.1⟩

/-! ## C3: input of one or two characters -/

/-- C3 as stated fails. Submitting `ab` (one more character needed) and
submitting `a` (two more needed) show the same message, the fixed sentence
about the minimum of 3 characters, and that sentence does not contain the
number of characters still missing. -/
theorem submit_short_message_has_no_count :
    (jsTrim (lit "ab")).length = 2 ∧ (jsTrim (lit "a")).length = 1 ∧
    (submitHandler v8 offline (lit "ab") (some (lit "both")) idle).dom.errorMessage =
      lit "Text must be at least 3 characters long for accurate detection." ∧
    (submitHandler v8 offline (lit "a") (some (lit "both")) idle).dom.errorMessage =
      (submitHandler v8 offline (lit "ab") (some (lit "both")) idle).dom.errorMessage ∧
    ¬ (numToString (3 - 2) <:+:
        (submitHandler v8 offline (lit "ab") (some (lit "both")) idle).dom.errorMessage) := by
  decide

/-- C3, amended. For every input whose trimmed length is 1 or 2 the submit
handler issues no request and shows the fixed message `Text must be at least
3 characters long for accurate detection.`; the number of characters still
needed, 3 minus the trimmed length, is reported by the text input's `input`
listener, whose feedback reads `Need k more characters for accurate
detection.` -/
theorem submit_short_shows_minimum_message (P : Platform)
    (fetch : Request → FetchOutcome) (value method : JSString) (d : Dom)
    (h : (jsTrim value).length = 1 ∨ (jsTrim value).length = 2) :
    requests (submitHandler P fetch value (some method) d).trace = [] ∧
    (submitHandler P fetch value (some method) d).trace =
      [.showError (lit "Text must be at least 3 characters long for accurate detection.")] ∧
    (submitHandler P fetch value (some method) d).dom =
      showError (lit "Text must be at least 3 characters long for accurate detection.") d ∧
    (inputHandler value d).formTextHTML =
      lit "<i class=\"fas fa-exclamation-circle me-1\"></i>Need " ++
      numToString (3 - ((jsTrim value).length : Int)) ++
      lit " more characters for accurate detection." := by
  have hne : (jsTrim value).isEmpty = false := isEmpty_eq_false_of_length (by omega)
  have hlt : (jsTrim value).length < 3 := by omega
  have hpos : (jsTrim value).length > 0 := by omega
  rw [submitHandler_short P fetch value method d hpos hlt]
  refine ⟨rfl, rfl, rfl, ?_⟩
  unfold inputHandler
  simp only [hlt, hpos, and_self, if_true]

/-- Witness for C3: the text ` ab ` typed and submitted on the idle page. -/
theorem submit_short_shows_minimum_message_witness :
    ((jsTrim (lit " ab ")).length = 1 ∨ (jsTrim (lit " ab ")).length = 2) ∧
    requests (submitHandler v8 offline (lit " ab ") (some (lit "both")) idle).trace = [] ∧
    (inputHandler (lit " ab ") idle).formTextHTML =
      lit "<i class=\"fas fa-exclamation-circle me-1\"></i>Need 1 more characters for accurate detection." :=
  have key := submit_short_shows_minimum_message v8 offline (lit " ab ") (lit "both") idle
    (by decide)
  ⟨by decide, key.1, key.2.2.2.trans (by decide)⟩

/-! ## C4: non-success status with a JSON body -/

/-- The run on a non-success response whose body can be read: the `catch`
clause shows `data.error || 'Detection failed'`. -/
theorem submitHandler_failure_value (P : Platform) (fetch : Request → FetchOutcome)
    (value method : JSString) (d : Dom) (fields : ResponseData)
    (h : 3 ≤ (jsTrim value).length)
    (hf : fetch (detectRequest (jsTrim value) method) =
      .response false (.resolved (.value fields))) :
    submitHandler P fetch value (some method) d =
      { dom := showError (orElse fields.error (lit "Detection failed")) (released (waiting d))
        trace := [.disabled true, .fetch (detectRequest (jsTrim value) method), .suspend,
          .suspend, .disabled false,
          .showError (orElse fields.error (lit "Detection failed"))]
        timers := []
        uncaught := none } := by
  rw [submitHandler_valid P fetch value method d h,
    tryBlock_failure_value P fetch (jsTrim value) method fields (waiting d) hf]
  rfl

/-- C4 as stated fails twice. A non-success response with body
`{"error": ""}` carries an `error` field with a string value, and the
message shown is `Detection failed`, not that value. A non-success response
with body `null` is JSON without an `error` field, and the message shown is
the engine's `TypeError` text, not `Detection failed`. -/
theorem failure_status_message_counterexample :
    (submitHandler v8
      (fun _ => .response false (.resolved (.value ⟨some (lit ""), none, none⟩)))
      (lit "hello") (some (lit "both")) idle).dom.errorMessage = lit "Detection failed" ∧
    lit "Detection failed" ≠ lit "" ∧
    (submitHandler v8 (fun _ => .response false (.resolved .null))
      (lit "hello") (some (lit "both")) idle).dom.errorMessage =
        lit "Cannot read properties of null (reading 'error')" ∧
    lit "Cannot read properties of null (reading 'error')" ≠ lit "Detection failed" := by
  decide

/-- C4, amended. For every response with a non-success status whose JSON
body carries an `error` field with a non-empty string value `e`, the handler
ends in the error display (error section shown, results and loading hidden)
with message `e`; when the body is a JSON value other than `null` that has
no `error` field, or an empty one, the message is `Detection failed`. -/
theorem failure_status_shows_error_field (P : Platform) (fetch : Request → FetchOutcome)
    (value method : JSString) (d : Dom) (fields : ResponseData)
    (h : 3 ≤ (jsTrim value).length)
    (hf : fetch (detectRequest (jsTrim value) method) =
      .response false (.resolved (.value fields))) :
    (submitHandler P fetch value (some method) d).dom.errorDisplay = .block ∧
    (submitHandler P fetch value (some method) d).dom.resultsDisplay = .none ∧
    (submitHandler P fetch value (some method) d).dom.loadingDisplay = .none ∧
    (∀ e : JSString, fields.error = some e → e ≠ [] →
      (submitHandler P fetch value (some method) d).dom.errorMessage = e) ∧
    (fields.error = none ∨ fields.error = some [] →
      (submitHandler P fetch value (some method) d).dom.errorMessage =
        lit "Detection failed") := by
  rw [submitHandler_failure_value P fetch value method d fields h hf]
  refine ⟨rfl, rfl, rfl, ?_, ?_⟩
  · intro e he hne
    cases e with
    | nil => exact absurd rfl hne
    | cons c cs => simp [showError, orElse, he]
  · intro hnone
    rcases hnone with hn | hn <;> simp [showError, orElse, hn]

/-- Witness for C4: status 400 with body `{"error":"too short"}` shows
`too short`. -/
theorem failure_status_shows_error_field_witness :
    3 ≤ (jsTrim (lit "hello")).length ∧
    (submitHandler v8
      (fun _ => .response false (.resolved (.value ⟨some (lit "too short"), none, none⟩)))
      (lit "hello") (some (lit "both")) idle).dom.errorMessage = lit "too short" :=
  ⟨by decide,
    (failure_status_shows_error_field v8
      (fun _ => .response false (.resolved (.value ⟨some (lit "too short"), none, none⟩)))
      (lit "hello") (lit "both") idle ⟨some (lit "too short"), none, none⟩
      (by decide) rfl).2.2.2.1 (lit "too short") rfl (by decide)⟩

/-! ## C5: non-success status without a body -/

/-- The run when `response.json()` rejects, whatever the status: the `catch`
clause shows the message of that rejection. -/
theorem submitHandler_unparsed (P : Platform) (fetch : Request → FetchOutcome)
    (value method message : JSString) (ok : Bool) (d : Dom)
    (h : 3 ≤ (jsTrim value).length)
    (hf : fetch (detectRequest (jsTrim value) method) = .response ok (.rejected message)) :
    submitHandler P fetch value (some method) d =
      { dom := showError message (released (waiting d))
        trace := [.disabled true, .fetch (detectRequest (jsTrim value) method), .suspend,
          .suspend, .disabled false, .showError message]
        timers := []
        uncaught := none } := by
  rw [submitHandler_valid P fetch value method d h,
    tryBlock_unparsed P fetch (jsTrim value) method message ok (waiting d) hf]
  rfl

/-- C5 on the code. A non-success response with an empty body makes
`response.json()` reject before the status is looked at; with V8's wording
of that rejection the page shows `Unexpected end of JSON input`, which is
not the generic `Detection failed`. -/
theorem failure_status_without_body_shows_parser_message :
    (submitHandler v8
      (fun _ => .response false (.rejected (lit "Unexpected end of JSON input")))
      (lit "hello") (some (lit "both")) idle).dom.errorMessage =
        lit "Unexpected end of JSON input" ∧
    (submitHandler v8
      (fun _ => .response false (.rejected (lit "Unexpected end of JSON input")))
      (lit "hello") (some (lit "both")) idle).dom.errorMessage ≠ lit "Detection failed" := by
  decide

/-! ## The remaining paths -/

/-- The run when `fetch` rejects. -/
theorem submitHandler_rejected (P : Platform) (fetch : Request → FetchOutcome)
    (value method message : JSString) (d : Dom) (h : 3 ≤ (jsTrim value).length)
    (hf : fetch (detectRequest (jsTrim value) method) = .rejected message) :
    submitHandler P fetch value (some method) d =
      { dom := showError message (released (waiting d))
        trace := [.disabled true, .fetch (detectRequest (jsTrim value) method), .suspend,
          .disabled false, .showError message]
        timers := []
        uncaught := none } := by
  rw [submitHandler_valid P fetch value method d h,
    tryBlock_rejected P fetch (jsTrim value) method message (waiting d) hf]
  rfl

/-- The run on a non-success response with body `null`. -/
theorem submitHandler_failure_null (P : Platform) (fetch : Request → FetchOutcome)
    (value method : JSString) (d : Dom) (h : 3 ≤ (jsTrim value).length)
    (hf : fetch (detectRequest (jsTrim value) method) = .response false (.resolved .null)) :
    submitHandler P fetch value (some method) d =
      { dom := showError (P.nullReadMessage (lit "error")) (released (waiting d))
        trace := [.disabled true, .fetch (detectRequest (jsTrim value) method), .suspend,
          .suspend, .disabled false, .showError (P.nullReadMessage (lit "error"))]
        timers := []
        uncaught := none } := by
  rw [submitHandler_valid P fetch value method d h,
    tryBlock_failure_null P fetch (jsTrim value) method (waiting d) hf]
  rfl

/-- The run on a success response with body `null`: `displayResults` raises
after its layout statements and the `catch` clause takes over. -/
theorem submitHandler_success_null (P : Platform) (fetch : Request → FetchOutcome)
    (value method : JSString) (d : Dom) (h : 3 ≤ (jsTrim value).length)
    (hf : fetch (detectRequest (jsTrim value) method) = .response true (.resolved .null)) :
    submitHandler P fetch value (some method) d =
      { dom := showError (P.nullReadMessage (lit "traditional"))
          (released (resultsLayout method (released (waiting d))))
        trace := [.disabled true, .fetch (detectRequest (jsTrim value) method), .suspend,
          .suspend, .disabled false, .displayResults .null method, .disabled false,
          .showError (P.nullReadMessage (lit "traditional"))]
        timers := []
        uncaught := none } := by
  rw [submitHandler_valid P fetch value method d h,
    tryBlock_success_null P fetch (jsTrim value) method (waiting d) hf]
  rfl

/-- The run on a success response whose body `displayResults` can read. -/
theorem submitHandler_success_value (P : Platform) (fetch : Request → FetchOutcome)
    (value method : JSString) (d : Dom) (fields : ResponseData)
    (h : 3 ≤ (jsTrim value).length)
    (hf : fetch (detectRequest (jsTrim value) method) =
      .response true (.resolved (.value fields))) :
    submitHandler P fetch value (some method) d =
      { dom := resultsLayout method (released (waiting d))
        trace := [.disabled true, .fetch (detectRequest (jsTrim value) method), .suspend,
          .suspend, .disabled false, .displayResults (.value fields) method]
        timers := resultTimers fields method
        uncaught := none } := by
  rw [submitHandler_valid P fetch value method d h,
    tryBlock_success_value P fetch (jsTrim value) method fields (waiting d) hf]

/-- The layout statements of `displayResults` leave the loading section and
the submit button alone, show the results section and hide the error
section. -/
theorem resultsLayout_frame (method : JSString) (d : Dom) :
    (resultsLayout method d).loadingDisplay = d.loadingDisplay ∧
    (resultsLayout method d).resultsDisplay = .block ∧
    (resultsLayout method d).errorDisplay = .none ∧
    (resultsLayout method d).submitDisabled = d.submitDisabled ∧
    (resultsLayout method d).traditionalResults = [] ∧
    (resultsLayout method d).pretrainedResults = [] := by
  unfold resultsLayout
  split
  · exact ⟨rfl, rfl, rfl, rfl, rfl, rfl⟩
  · split <;> exact ⟨rfl, rfl, rfl, rfl, rfl, rfl⟩

/-! ## C10: transport failure -/

/-- C10. When the network call rejects with an error whose message is `m`,
the handler catches it: nothing leaves the handler, the page ends in the
error display (error section shown, results and loading hidden, button
enabled) with message `m`, after a single `showError`. This is the state a
non-success status leads to: for every readable non-success body the final
page differs from this one in the text of the message only. -/
theorem transport_failure_shows_its_message (P : Platform) (fetch : Request → FetchOutcome)
    (value method m : JSString) (d : Dom) (h : 3 ≤ (jsTrim value).length)
    (hf : fetch (detectRequest (jsTrim value) method) = .rejected m) :
    (submitHandler P fetch value (some method) d).uncaught = none ∧
    errorsShown (submitHandler P fetch value (some method) d).trace = [m] ∧
    (submitHandler P fetch value (some method) d).dom.errorMessage = m ∧
    sections (submitHandler P fetch value (some method) d).dom = (.none, .none, .block) ∧
    (submitHandler P fetch value (some method) d).dom.submitDisabled = false ∧
    (∀ (server : Request → FetchOutcome) (fields : ResponseData),
      server (detectRequest (jsTrim value) method) =
        .response false (.resolved (.value fields)) →
      (submitHandler P server value (some method) d).dom =
        { (submitHandler P fetch value (some method) d).dom with
          errorMessage := orElse fields.error (lit "Detection failed") }) := by
  rw [submitHandler_rejected P fetch value method m d h hf]
  refine ⟨rfl, rfl, rfl, rfl, rfl, ?_⟩
  intro server fields hs
  rw [submitHandler_failure_value P server value method d fields h hs]
  rfl

/-- Witness for C10: the network is down and `fetch` rejects with
`Failed to fetch`. -/
theorem transport_failure_shows_its_message_witness :
    3 ≤ (jsTrim (lit "hello")).length ∧
    (submitHandler v8 offline (lit "hello") (some (lit "both")) idle).uncaught = none ∧
    (submitHandler v8 offline (lit "hello") (some (lit "both")) idle).dom.errorMessage =
      lit "Failed to fetch" :=
  have key := transport_failure_shows_its_message v8 offline (lit "hello") (lit "both")
    (lit "Failed to fetch") idle (by decide) rfl
  ⟨by decide, key.1, key.2.2.1⟩

/-- After the release the button is enabled and the loading section hidden;
the other sections are as before. -/
theorem released_frame (d : Dom) :
    (released d).submitDisabled = false ∧ (released d).loadingDisplay = .none ∧
    (released d).resultsDisplay = d.resultsDisplay ∧
    (released d).errorDisplay = d.errorDisplay :=
  ⟨rfl, rfl, rfl, rfl⟩

/-! ## C8: the submit button during a submission -/

/-- C8 as stated fails. The claim keeps the button disabled until the result
or the error is rendered and has it re-enabled exactly once on every path.
On the success response `{"traditional": frenchResult}` the handler finishes
with the button enabled while the traditional panel is still empty, the
results section still transparent and the timer that writes the markup
still pending: the result appears only when the timers fire. In the last
synchronous block the release comes before the call of `displayResults`,
and on a transport failure before the call of `showError`. On a success
status with body `null` the statement `submitButton.disabled = false` is
executed twice. -/
theorem button_released_before_result_rendered :
    (submitHandler v8 frenchServer (lit "bonjour") (some (lit "traditional")) idle).dom.submitDisabled
      = false ∧
    (submitHandler v8 frenchServer (lit "bonjour") (some (lit "traditional")) idle).dom.traditionalResults
      = lit "" ∧
    (submitHandler v8 frenchServer (lit "bonjour") (some (lit "traditional")) idle).dom.resultsOpacity
      = lit "0" ∧
    (submitHandler v8 frenchServer (lit "bonjour") (some (lit "traditional")) idle).timers =
      [⟨200, .traditional frenchResult⟩, ⟨100, .fadeIn⟩, ⟨600, .animate⟩] ∧
    (runTimers
      (submitHandler v8 frenchServer (lit "bonjour") (some (lit "traditional")) idle).timers
      (submitHandler v8 frenchServer (lit "bonjour") (some (lit "traditional")) idle).dom).traditionalResults
      = createTraditionalResultDisplay frenchResult ∧
    createTraditionalResultDisplay frenchResult ≠ lit "" ∧
    lastBlock (submitHandler v8 frenchServer (lit "bonjour") (some (lit "traditional")) idle).trace =
      [.disabled false,
        .displayResults (.value ⟨none, some frenchResult, none⟩) (lit "traditional")] ∧
    lastBlock (submitHandler v8 offline (lit "bonjour") (some (lit "traditional")) idle).trace =
      [.disabled false, .showError (lit "Failed to fetch")] ∧
    releases (submitHandler v8 nullServer (lit "bonjour") (some (lit "traditional")) idle).trace
      = 2 := by
  decide

/-- C8, amended. For every submission that passes validation, whatever the
network answers and whatever the page state was:
* the button is disabled when `fetch` is called and at every `await` of the
  handler;
* along the run it goes from disabled to enabled exactly once, and it is
  enabled when the handler finishes, so it is never left disabled;
* the last synchronous block, the one after the last `await`, starts with
  the release `submitButton.disabled = false`, directly followed by the call
  of `showError` or `displayResults`, and the run ends with such a call: the
  button is released before, not after, the render is started;
* on a success response with a readable body the handler finishes with the
  button enabled, both panels empty, the results section transparent and
  the timers of `displayResults` pending: the result markup is written only
  when they fire;
* the page then shows the error section or the results section;
* on every path other than a success status with body `null` the statement
  `submitButton.disabled = false` is executed exactly once. -/
theorem submit_button_disabled_while_waiting (P : Platform)
    (fetch : Request → FetchOutcome) (value method : JSString) (d : Dom)
    (h : 3 ≤ (jsTrim value).length) :
    disabledAtCallsAndWaits d.submitDisabled
      (submitHandler P fetch value (some method) d).trace = true ∧
    reenabled d.submitDisabled (submitHandler P fetch value (some method) d).trace = 1 ∧
    buttonAfter d.submitDisabled (submitHandler P fetch value (some method) d).trace = false ∧
    (submitHandler P fetch value (some method) d).dom.submitDisabled = false ∧
    (∃ (call : Event) (rest : List Event),
      lastBlock (submitHandler P fetch value (some method) d).trace =
        .disabled false :: call :: rest ∧ isRenderCall call = true) ∧
    (submitHandler P fetch value (some method) d).trace.getLast?.map isRenderCall = some true ∧
    (∀ fields : ResponseData,
      fetch (detectRequest (jsTrim value) method) =
        .response true (.resolved (.value fields)) →
      (submitHandler P fetch value (some method) d).dom.traditionalResults = [] ∧
      (submitHandler P fetch value (some method) d).dom.pretrainedResults = [] ∧
      (submitHandler P fetch value (some method) d).dom.resultsOpacity = lit "0" ∧
      (submitHandler P fetch value (some method) d).timers = resultTimers fields method) ∧
    ((submitHandler P fetch value (some method) d).dom.errorDisplay = .block ∨
      (submitHandler P fetch value (some method) d).dom.resultsDisplay = .block) ∧
    (fetch (detectRequest (jsTrim value) method) ≠ .response true (.resolved .null) →
      releases (submitHandler P fetch value (some method) d).trace = 1) := by
  cases hf : fetch (detectRequest (jsTrim value) method) with
  | rejected message =>
    rw [submitHandler_rejected P fetch value method message d h hf]
    refine ⟨?_, ?_, ?_, rfl, ⟨_, _, rfl, rfl⟩, ?_, ?_, ?_, ?_⟩ <;>
      simp [disabledAtCallsAndWaits, reenabled, buttonAfter, isRenderCall, releases, showError]
  | response ok json =>
    cases json with
    | rejected message =>
      rw [submitHandler_unparsed P fetch value method message ok d h hf]
      refine ⟨?_, ?_, ?_, rfl, ⟨_, _, rfl, rfl⟩, ?_, ?_, ?_, ?_⟩ <;>
        simp [disabledAtCallsAndWaits, reenabled, buttonAfter, isRenderCall, releases, showError]
    | resolved data =>
      cases ok <;> cases data
      · rw [submitHandler_failure_null P fetch value method d h hf]
        refine ⟨?_, ?_, ?_, rfl, ⟨_, _, rfl, rfl⟩, ?_, ?_, ?_, ?_⟩ <;>
          simp [disabledAtCallsAndWaits, reenabled, buttonAfter, isRenderCall, releases,
            showError]
      · rw [submitHandler_failure_value P fetch value method d _ h hf]
        refine ⟨?_, ?_, ?_, rfl, ⟨_, _, rfl, rfl⟩, ?_, ?_, ?_, ?_⟩ <;>
          simp [disabledAtCallsAndWaits, reenabled, buttonAfter, isRenderCall, releases,
            showError]
      · rw [submitHandler_success_null P fetch value method d h hf]
        refine ⟨?_, ?_, ?_, rfl, ⟨_, _, rfl, rfl⟩, ?_, ?_, ?_, ?_⟩ <;>
          simp [disabledAtCallsAndWaits, reenabled, buttonAfter, isRenderCall, releases,
            showError]
      · rename_i fields0
        rw [submitHandler_success_value P fetch value method d _ h hf]
        have hl := resultsLayout_frame method (released (waiting d))
        have hop : (resultsLayout method (released (waiting d))).resultsOpacity = lit "0" := by
          unfold resultsLayout
          split
          · rfl
          · split <;> rfl
        refine ⟨?_, ?_, ?_, ?_, ⟨_, _, rfl, rfl⟩, ?_, ?_, ?_, ?_⟩
        · simp [disabledAtCallsAndWaits]
        · simp [reenabled]
        · simp [buttonAfter]
        · exact hl.2.2.2.1.trans (released_frame _).1
        · simp [isRenderCall]
        · intro fields hfields
          have hsame : fields0 = fields := by
            injection hfields with _ hjson
            injection hjson with hbody
            injection hbody
          subst hsame
          exact ⟨hl.2.2.2.2.1, hl.2.2.2.2.2, hop, rfl⟩
        · exact Or.inr hl.2.1
        · intro _
          simp [releases]

/-- Witness for C8: the success response `{"traditional": frenchResult}`. -/
theorem submit_button_disabled_while_waiting_witness :
    3 ≤ (jsTrim (lit "bonjour")).length ∧
    reenabled idle.submitDisabled
      (submitHandler v8 frenchServer (lit "bonjour") (some (lit "traditional")) idle).trace = 1 ∧
    (submitHandler v8 frenchServer (lit "bonjour") (some (lit "traditional")) idle).dom.submitDisabled
      = false ∧
    (submitHandler v8 frenchServer (lit "bonjour") (some (lit "traditional")) idle).timers =
      resultTimers ⟨none, some frenchResult, none⟩ (lit "traditional") ∧
    releases (submitHandler v8 frenchServer (lit "bonjour") (some (lit "traditional")) idle).trace
      = 1 :=
  have key := submit_button_disabled_while_waiting v8 frenchServer (lit "bonjour")
    (lit "traditional") idle (by decide)
  ⟨by decide, key.2.1, key.2.2.2.1,
    (key.2.2.2.2.2.2.1 ⟨none, some frenchResult, none⟩ rfl).2.2.2,
    key.2.2.2.2.2.2.2.2 (by decide)⟩

/-! ## C9: one section at a time -/

/-- No timer callback touches the `display` of a section, the error message
or the submit button. -/
theorem fire_frame (action : TimerAction) (d : Dom) :
    sections (fire action d) = sections d ∧
    (fire action d).errorMessage = d.errorMessage ∧
    (fire action d).submitDisabled = d.submitDisabled := by
  cases action with
  | traditional result => unfold fire; dsimp only; split <;> exact ⟨rfl, rfl, rfl⟩
  | pretrained result => unfold fire; dsimp only; split <;> exact ⟨rfl, rfl, rfl⟩
  | fadeIn => exact ⟨rfl, rfl, rfl⟩
  | animate => exact ⟨rfl, rfl, rfl⟩

theorem foldl_fire_sections (queue : List Timer) (d : Dom) :
    sections (queue.foldl (fun dom t => fire t.action dom) d) = sections d := by
  induction queue generalizing d with
  | nil => rfl
  | cons t rest ih => rw [List.foldl_cons, ih, (fire_frame t.action d).1]

/-- Running the pending timers leaves the three sections as they are. -/
theorem runTimers_sections (ts : List Timer) (d : Dom) :
    sections (runTimers ts d) = sections d :=
  foldl_fire_sections (timerOrder ts) d

/-- C9. `showError` shows the error section with the one message it is
given and hides the results and loading sections; `showLoading` shows the
loading section alone; `displayResults`, called as the handler calls it
(after `hideLoading`), shows the results section alone, also once its timers
have fired. As a consequence every run of the submit handler ends with
exactly one of the three sections displayed: either no error was shown and
the results section is displayed, or exactly one `showError` was made, its
message is the text of the error element, the error section is displayed
and the results and loading sections are hidden with no timer pending. -/
theorem exactly_one_section_shown (P : Platform) (fetch : Request → FetchOutcome)
    (value method : JSString) (d : Dom) :
    (∀ (m : JSString) (d0 : Dom),
      sections (showError m d0) = (.none, .none, .block) ∧ (showError m d0).errorMessage = m) ∧
    (∀ d0 : Dom, sections (showLoading d0) = (.block, .none, .none)) ∧
    (∀ (data : Body) (method0 : JSString) (d0 : Dom),
      match displayResults P data method0 (hideLoading d0) with
      | .ok (d1, timers) =>
        sections d1 = (.none, .block, .none) ∧
        sections (runTimers timers d1) = (.none, .block, .none)
      | .error (_, d1) => sections d1 = (.none, .block, .none)) ∧
    ((errorsShown (submitHandler P fetch value (some method) d).trace = [] ∧
        sections (submitHandler P fetch value (some method) d).dom = (.none, .block, .none) ∧
        sections (runTimers (submitHandler P fetch value (some method) d).timers
          (submitHandler P fetch value (some method) d).dom) = (.none, .block, .none)) ∨
      (∃ m : JSString,
        errorsShown (submitHandler P fetch value (some method) d).trace = [m] ∧
        (submitHandler P fetch value (some method) d).dom.errorMessage = m ∧
        sections (submitHandler P fetch value (some method) d).dom = (.none, .none, .block) ∧
        (submitHandler P fetch value (some method) d).timers = [])) := by
  have hlayout : ∀ (method0 : JSString) (d0 : Dom), d0.loadingDisplay = .none →
      sections (resultsLayout method0 d0) = (.none, .block, .none) := by
    intro method0 d0 h0
    have hl := resultsLayout_frame method0 d0
    simp only [sections, hl.1, hl.2.1, hl.2.2.1, h0]
  refine ⟨fun m d0 => ⟨rfl, rfl⟩, fun d0 => rfl, ?_, ?_⟩
  · intro data method0 d0
    cases data with
    | null => exact hlayout method0 (hideLoading d0) rfl
    | value fields =>
      exact ⟨hlayout method0 (hideLoading d0) rfl,
        by rw [runTimers_sections]; exact hlayout method0 (hideLoading d0) rfl⟩
  · by_cases h0 : (jsTrim value).length = 0
    · right
      have key := submitHandler_blank P fetch value method d h0
      rw [key]
      exact ⟨_, rfl, rfl, rfl, rfl⟩
    · by_cases h3 : (jsTrim value).length < 3
      · right
        have key := submitHandler_short P fetch value method d (by omega) h3
        rw [key]
        exact ⟨_, rfl, rfl, rfl, rfl⟩
      · have h : 3 ≤ (jsTrim value).length := by omega
        cases hf : fetch (detectRequest (jsTrim value) method) with
        | rejected message =>
          right
          rw [submitHandler_rejected P fetch value method message d h hf]
          exact ⟨_, rfl, rfl, rfl, rfl⟩
        | response ok json =>
          cases json with
          | rejected message =>
            right
            rw [submitHandler_unparsed P fetch value method message ok d h hf]
            exact ⟨_, rfl, rfl, rfl, rfl⟩
          | resolved data =>
            cases ok <;> cases data
            · right
              rw [submitHandler_failure_null P fetch value method d h hf]
              exact ⟨_, rfl, rfl, rfl, rfl⟩
            · right
              rw [submitHandler_failure_value P fetch value method d _ h hf]
              exact ⟨_, rfl, rfl, rfl, rfl⟩
            · right
              rw [submitHandler_success_null P fetch value method d h hf]
              exact ⟨_, rfl, rfl, rfl, rfl⟩
            · left
              rw [submitHandler_success_value P fetch value method d _ h hf]
              refine ⟨rfl, hlayout method (released (waiting d)) rfl, ?_⟩
              rw [runTimers_sections]
              exact hlayout method (released (waiting d)) rfl

/-! ## C7: a response with only a traditional result -/

/-- Only the callback registered for `data.pretrained` writes to the
pretrained panel. -/
theorem fire_pretrainedResults (action : TimerAction) (d : Dom)
    (h : ∀ result, action ≠ .pretrained result) :
    (fire action d).pretrainedResults = d.pretrainedResults := by
  cases action with
  | traditional result => unfold fire; dsimp only; split <;> rfl
  | pretrained result => exact absurd rfl (h result)
  | fadeIn => rfl
  | animate => rfl

theorem foldl_fire_pretrainedResults (queue : List Timer) (d : Dom)
    (h : ∀ t ∈ queue, ∀ result, t.action ≠ .pretrained result) :
    (queue.foldl (fun dom t => fire t.action dom) d).pretrainedResults =
      d.pretrainedResults := by
  induction queue generalizing d with
  | nil => rfl
  | cons t rest ih =>
    rw [List.foldl_cons, ih _ (fun u hu => h u (List.mem_cons_of_mem t hu)),
      fire_pretrainedResults t.action d (h t (List.mem_cons_self t rest))]

theorem mem_insertTimer {t u : Timer} {queue : List Timer} (h : u ∈ insertTimer t queue) :
    u = t ∨ u ∈ queue := by
  induction queue with
  | nil => simpa [insertTimer] using h
  | cons v rest ih =>
    unfold insertTimer at h
    split at h
    · simpa using h
    · rcases List.mem_cons.mp h with hv | hr
      · exact Or.inr (hv ▸ List.mem_cons_self _ _)
      · rcases ih hr with ht | hm
        · exact Or.inl ht
        · exact Or.inr (List.mem_cons_of_mem v hm)

theorem mem_foldl_insertTimer {u : Timer} (ts queue : List Timer)
    (h : u ∈ ts.foldl (fun q t => insertTimer t q) queue) : u ∈ ts ∨ u ∈ queue := by
  induction ts generalizing queue with
  | nil => exact Or.inr h
  | cons t rest ih =>
    rcases ih (insertTimer t queue) h with hr | hq
    · exact Or.inl (List.mem_cons_of_mem t hr)
    · rcases mem_insertTimer hq with ht | hm
      · exact Or.inl (ht ▸ List.mem_cons_self _ _)
      · exact Or.inr hm

/-- The event loop only runs timers that were registered. -/
theorem mem_of_mem_timerOrder {u : Timer} {ts : List Timer} (h : u ∈ timerOrder ts) :
    u ∈ ts := by
  rcases mem_foldl_insertTimer ts [] h with hm | hn
  · exact hm
  · simp at hn

/-- The error display is never the empty string. -/
theorem createErrorDisplay_ne_nil (error : JSString) : createErrorDisplay error ≠ [] := by
  intro h
  have hlen := congrArg List.length h
  have h0 : 0 < (lit "\n            <div class=\"alert alert-danger\" role=\"alert\">\n                <i class=\"fas fa-exclamation-triangle me-2\"></i>\n                ").length := by
    decide
  simp only [createErrorDisplay, List.length_append, List.length_nil] at hlen
  omega

/-- C7. For every success response that contains only a `traditional`
field, every method and every earlier page state (so whatever the
pretrained panel held), `displayResults` returns normally with the
pretrained panel empty, and the panel stays empty while the registered
timers fire one after the other (after any number `k` of them) and when all
have fired; in particular it never holds an error display. -/
theorem pretrained_panel_empty_without_pretrained_result (P : Platform)
    (result : MethodResult) (method : JSString) (d : Dom) :
    ∃ (d1 : Dom) (timers : List Timer),
      displayResults P (.value ⟨none, some result, none⟩) method d = .ok (d1, timers) ∧
      d1.pretrainedResults = [] ∧
      (∀ k : Nat, (((timerOrder timers).take k).foldl
        (fun dom t => fire t.action dom) d1).pretrainedResults = []) ∧
      (runTimers timers d1).pretrainedResults = [] ∧
      (∀ e : JSString, (runTimers timers d1).pretrainedResults ≠ createErrorDisplay e) := by
  have hno : ∀ t ∈ timerOrder (resultTimers ⟨none, some result, none⟩ method),
      ∀ r, t.action ≠ .pretrained r := by
    intro t ht r
    have hm := mem_of_mem_timerOrder ht
    simp only [resultTimers, List.append_nil, List.singleton_append, List.mem_cons,
      List.mem_singleton, List.not_mem_nil, or_false] at hm
    rcases hm with hm | hm | hm <;> rw [hm] <;> simp
  have hclear := (resultsLayout_frame method d).2.2.2.2.2
  have hall : (runTimers (resultTimers ⟨none, some result, none⟩ method)
      (resultsLayout method d)).pretrainedResults = [] := by
    unfold runTimers
    rw [foldl_fire_pretrainedResults _ _ hno, hclear]
  refine ⟨resultsLayout method d, resultTimers ⟨none, some result, none⟩ method, rfl,
    hclear, ?_, hall, ?_⟩
  · intro k
    rw [foldl_fire_pretrainedResults _ _
      (fun t ht => hno t (List.mem_of_mem_take ht)), hclear]
  · intro e he
    exact createErrorDisplay_ne_nil e (he.symm.trans hall)

/-! ## C6: two sub-results rendered side by side -/

/-- With method `both` and both sub-results present, the timers fire in the
order fade-in (100 ms), traditional (200 ms), pretrained (400 ms),
animation (600 ms). -/
theorem runTimers_both (error : Option JSString) (t p : MethodResult) (d : Dom) :
    runTimers (resultTimers ⟨error, some t, some p⟩ (lit "both")) d =
      fire .animate (fire (.pretrained p) (fire (.traditional t) (fire .fadeIn d))) := by
  simp [resultTimers, runTimers, timerOrder, insertTimer]

/-- What the two panels hold once the callbacks for `t` and `p` have run. -/
theorem panels_after_both (t p : MethodResult) (d : Dom) :
    (fire .animate (fire (.pretrained p) (fire (.traditional t) (fire .fadeIn d)))).traditionalResults =
      (if truthy t.error then createErrorDisplay (strOrUndefined t.error)
        else createTraditionalResultDisplay t) ∧
    (fire .animate (fire (.pretrained p) (fire (.traditional t) (fire .fadeIn d)))).pretrainedResults =
      (if truthy p.error then createErrorDisplay (strOrUndefined p.error)
        else createPretrainedResultDisplay p) := by
  constructor
  · simp only [fire]
    split <;> split <;> rfl
  · simp only [fire]
    split <;> rfl

theorem truthy_some_of_ne_nil {e : JSString} (h : e ≠ []) : truthy (some e) = true := by
  cases e with
  | nil => exact absurd rfl h
  | cons c cs => rfl

/-- C6 as stated fails when the error message is the empty string. For the
response `{"traditional": {"error": ""}, "pretrained": r}` with method
`both`, the traditional panel ends up with the result display built from the
`error`-only object (language, confidence and method print as `undefined`),
not with the error display built from the message. -/
theorem empty_error_renders_as_result :
    (runTimers
      (resultTimers
        ⟨none, some ⟨some (lit ""), none, none, none, none, none⟩,
          some ⟨none, some (lit "French"), some 91, some (lit "fastText"), none, none⟩⟩
        (lit "both"))
      (resultsLayout (lit "both") idle)).traditionalResults =
        createTraditionalResultDisplay ⟨some (lit ""), none, none, none, none, none⟩ ∧
    createTraditionalResultDisplay ⟨some (lit ""), none, none, none, none, none⟩ ≠
      createErrorDisplay (lit "") := by
  decide

/-- C6, amended. For method `both` and every success response carrying both
sub-results, `displayResults` returns normally and, once its timers have
fired, each panel depends on its own sub-result only: a sub-result whose
`error` is a non-empty message `e` gives the error display built from `e`,
a sub-result without an `error` field gives the result display built from
it. So an error on one side does not block the result on the other side,
in either direction, and when both carry errors each panel shows its own.
The top-level error section is hidden and the results section shown. -/
theorem both_panels_render_independently (P : Platform) (error : Option JSString)
    (t p : MethodResult) (d : Dom) :
    ∃ (d1 : Dom) (timers : List Timer),
      displayResults P (.value ⟨error, some t, some p⟩) (lit "both") d = .ok (d1, timers) ∧
      (∀ e : JSString, t.error = some e → e ≠ [] →
        (runTimers timers d1).traditionalResults = createErrorDisplay e) ∧
      (t.error = none →
        (runTimers timers d1).traditionalResults = createTraditionalResultDisplay t) ∧
      (∀ e : JSString, p.error = some e → e ≠ [] →
        (runTimers timers d1).pretrainedResults = createErrorDisplay e) ∧
      (p.error = none →
        (runTimers timers d1).pretrainedResults = createPretrainedResultDisplay p) ∧
      (runTimers timers d1).errorDisplay = .none ∧
      (runTimers timers d1).resultsDisplay = .block := by
  have hpanels := panels_after_both t p (resultsLayout (lit "both") d)
  have hsec := runTimers_sections (resultTimers ⟨error, some t, some p⟩ (lit "both"))
    (resultsLayout (lit "both") d)
  have hl := resultsLayout_frame (lit "both") d
  refine ⟨resultsLayout (lit "both") d, resultTimers ⟨error, some t, some p⟩ (lit "both"),
    rfl, ?_, ?_, ?_, ?_, ?_, ?_⟩
  · intro e he hne
    rw [runTimers_both, hpanels.1, he, truthy_some_of_ne_nil hne]
    rfl
  · intro he
    rw [runTimers_both, hpanels.1, he]
    rfl
  · intro e he hne
    rw [runTimers_both, hpanels.2, he, truthy_some_of_ne_nil hne]
    rfl
  · intro he
    rw [runTimers_both, hpanels.2, he]
    rfl
  · have := congrArg (fun s => s.2.2) hsec
    simpa [sections, hl.2.2.1] using this
  · have := congrArg (fun s => s.2.1) hsec
    simpa [sections, hl.2.1] using this

/-! ## C11: confidence classes -/

/-- The three class names are pairwise different. -/
theorem confidence_classes_distinct :
    lit "confidence-high" ≠ lit "confidence-medium" ∧
    lit "confidence-high" ≠ lit "confidence-low" ∧
    lit "confidence-medium" ≠ lit "confidence-low" := by
  decide

/-- The class of a number, by the two thresholds. -/
theorem getConfidenceClass_some (c : Int) :
    getConfidenceClass (some c) =
      if 80 ≤ c then lit "confidence-high"
      else if 60 ≤ c then lit "confidence-medium"
      else lit "confidence-low" := by
  unfold getConfidenceClass jsGe
  by_cases h80 : 80 ≤ c
  · simp [h80]
  · by_cases h60 : 60 ≤ c <;> simp [h80, h60]

/-- The rank of the class of a number. -/
theorem classRank_getConfidenceClass (c : Int) :
    classRank (getConfidenceClass (some c)) =
      if 80 ≤ c then 2 else if 60 ≤ c then 1 else 0 := by
  have hd := confidence_classes_distinct
  rw [getConfidenceClass_some]
  by_cases h80 : 80 ≤ c
  · simp [h80, classRank]
  · by_cases h60 : 60 ≤ c
    · simp [h80, h60, classRank, hd.1.symm]
    · simp [h80, h60, classRank, hd.2.1.symm, hd.2.2.symm]

/-- C11. For every integer confidence `c`, in particular for every one
between 0 and 100, `getConfidenceClass(c)` is `confidence-high` exactly when
`c >= 80`, `confidence-medium` exactly when `60 <= c < 80` and
`confidence-low` exactly when `c < 60`; hence it is monotone: for `c <= c'`
the class of `c'` is never lower than the class of `c` in the order low,
medium, high. -/
theorem getConfidenceClass_thresholds_monotone (c c' : Int) (hle : c ≤ c') :
    (getConfidenceClass (some c) = lit "confidence-high" ↔ 80 ≤ c) ∧
    (getConfidenceClass (some c) = lit "confidence-medium" ↔ 60 ≤ c ∧ c < 80) ∧
    (getConfidenceClass (some c) = lit "confidence-low" ↔ c < 60) ∧
    classRank (getConfidenceClass (some c)) ≤ classRank (getConfidenceClass (some c')) := by
  have hd := confidence_classes_distinct
  have hrank : classRank (getConfidenceClass (some c)) ≤
      classRank (getConfidenceClass (some c')) := by
    rw [classRank_getConfidenceClass, classRank_getConfidenceClass]
    split_ifs <;> omega
  have hiff : (getConfidenceClass (some c) = lit "confidence-high" ↔ 80 ≤ c) ∧
      (getConfidenceClass (some c) = lit "confidence-medium" ↔ 60 ≤ c ∧ c < 80) ∧
      (getConfidenceClass (some c) = lit "confidence-low" ↔ c < 60) := by
    by_cases h80 : 80 ≤ c
    · have hcls : getConfidenceClass (some c) = lit "confidence-high" := by
        rw [getConfidenceClass_some, if_pos h80]
      rw [hcls]
      exact ⟨⟨fun _ => h80, fun _ => rfl⟩,
        ⟨fun h => absurd h hd.1, fun h => by omega⟩,
        ⟨fun h => absurd h hd.2.1, fun h => by omega⟩⟩
    · by_cases h60 : 60 ≤ c
      · have hcls : getConfidenceClass (some c) = lit "confidence-medium" := by
          rw [getConfidenceClass_some, if_neg h80, if_pos h60]
        rw [hcls]
        exact ⟨⟨fun h => absurd h.symm hd.1, fun h => absurd h h80⟩,
          ⟨fun _ => ⟨h60, by omega⟩, fun _ => rfl⟩,
          ⟨fun h => absurd h hd.2.2, fun h => by omega⟩⟩
      · have hcls : getConfidenceClass (some c) = lit "confidence-low" := by
          rw [getConfidenceClass_some, if_neg h80, if_neg h60]
        rw [hcls]
        exact ⟨⟨fun h => absurd h.symm hd.2.1, fun h => absurd h h80⟩,
          ⟨fun h => absurd h.symm hd.2.2, fun h => absurd h.1 h60⟩,
          ⟨fun _ => by omega, fun _ => rfl⟩⟩
  exact ⟨hiff.1, hiff.2.1, hiff.2.2, hrank⟩

/-- Witness for C11: confidences 59 and 80, on the two sides of both
thresholds. -/
theorem getConfidenceClass_thresholds_monotone_witness :
    (59 : Int) ≤ 80 ∧
    (getConfidenceClass (some 59) = lit "confidence-low" ↔ (59 : Int) < 60) ∧
    classRank (getConfidenceClass (some 59)) ≤ classRank (getConfidenceClass (some 80)) :=
  have key := getConfidenceClass_thresholds_monotone 59 80 (by decide)
  ⟨by decide, key.2.2.1, key.2.2.2⟩

end LanguageDetector
